import Mathlib

/-!
Shallow embedding of the Pong game engine (src/game/game_engine.py) and of the
Ball and Paddle entities it composes. Positions, sizes and velocities are
integers (`Int`); Python floor division `//` is `Int.fdiv`. Sound playback is
modelled by the list of sounds a frame emits, in the order the code plays them
(the sound-enabled variant, with all three sound assets loaded).
-/

namespace Pong

/-- Axis-aligned rectangle, as returned by the entities' rect() methods. -/
structure Rect where
  x : Int
  y : Int
  w : Int
  h : Int
deriving Repr, DecidableEq

/-- Modelled from the spec: pygame's Rect.colliderect — two rectangles overlap
when the open intervals of their projections intersect on both axes (rects
merely touching at an edge do not collide). -/
def Rect.colliderect (a b : Rect) : Bool :=
  a.x < b.x + b.w && b.x < a.x + a.w && a.y < b.y + b.h && b.y < a.y + a.h

/-- Modelled from the spec: Ball (src/game/ball.py is not in the sources) —
position, size, velocity, and the court bounds it was created with. -/
structure Ball where
  x : Int
  y : Int
  width : Int
  height : Int
  velocity_x : Int
  velocity_y : Int
  screen_width : Int
  screen_height : Int
deriving Repr, DecidableEq

/-- Modelled from the spec: Ball.move advances position by velocity each tick
(fixed per-frame step, no time-delta scaling). -/
def Ball.move (b : Ball) : Ball :=
  { b with x := b.x + b.velocity_x, y := b.y + b.velocity_y }

/-- Modelled from the spec: Ball.rect returns the ball's bounding box. -/
def Ball.rect (b : Ball) : Rect :=
  ⟨b.x, b.y, b.width, b.height⟩

/-- Modelled from the spec: Ball.reset repositions the ball to the court
center and may re-randomize the velocity direction while preserving the speed
magnitude. The direction choice is passed in as two booleans (true = positive
axis direction), so theorems quantify over every possible randomization. -/
def Ball.reset (b : Ball) (sx sy : Bool) : Ball :=
  { b with
    x := Int.fdiv b.screen_width 2
    y := Int.fdiv b.screen_height 2
    velocity_x := if sx then (b.velocity_x.natAbs : Int) else -(b.velocity_x.natAbs : Int)
    velocity_y := if sy then (b.velocity_y.natAbs : Int) else -(b.velocity_y.natAbs : Int) }

/-- Modelled from the spec: Paddle (src/game/paddle.py is not in the sources) —
position and size. -/
structure Paddle where
  x : Int
  y : Int
  width : Int
  height : Int
deriving Repr, DecidableEq

/-- Modelled from the spec: Paddle.rect returns the paddle's bounding box. -/
def Paddle.rect (p : Paddle) : Rect :=
  ⟨p.x, p.y, p.width, p.height⟩

/-- Modelled from the spec: Paddle.move shifts y by delta and clamps it to
[0, court_height − height]. -/
def Paddle.move (p : Paddle) (delta court_height : Int) : Paddle :=
  { p with y := max 0 (min (p.y + delta) (court_height - p.height)) }

/-- Modelled from the spec: Paddle.auto_track moves the paddle's y toward the
ball's y by a fixed step (a deterministic, step-based follow keyed off the
ball's vertical position), clamped to the court bounds. Only the paddle's y
changes. -/
def Paddle.auto_track (p : Paddle) (b : Ball) (court_height : Int) : Paddle :=
  let center := p.y + Int.fdiv p.height 2
  let delta : Int := if center < b.y then 5 else if b.y < center then -5 else 0
  p.move delta court_height

/-- Sounds the engine can play in a frame. -/
inductive Sound where
  | paddle
  | wall
  | score
deriving Repr, DecidableEq

/-- GameEngine state: court size, paddle dimensions, the two paddles, the
ball, scores and target score (src/game/game_engine.py, GameEngine.__init__). -/
structure GameEngine where
  width : Int
  height : Int
  paddle_width : Int
  paddle_height : Int
  player : Paddle
  ai : Paddle
  ball : Ball
  player_score : Int
  ai_score : Int
  target_score : Int
deriving Repr, DecidableEq

/-- GameEngine constructor (src/game/game_engine.py lines 18-31). The ball's
initial velocity is not fixed by the sources (src/game/ball.py is missing), so
it is a parameter here; the spec only requires signed integers of constant
magnitude. -/
def GameEngine.init (width height vx vy : Int) : GameEngine :=
  { width := width
    height := height
    paddle_width := 10
    paddle_height := 100
    player := ⟨10, Int.fdiv height 2 - 50, 10, 100⟩
    ai := ⟨width - 20, Int.fdiv height 2 - 50, 10, 100⟩
    ball := ⟨Int.fdiv width 2, Int.fdiv height 2, 7, 7, vx, vy, width, height⟩
    player_score := 0
    ai_score := 0
    target_score := 5 }

/-- Paddle-collision resolution (src/game/game_engine.py lines 62-68): if the
ball overlaps the player paddle, its left edge moves to the paddle's right
edge and velocity_x is inverted; else if it overlaps the AI paddle, its right
edge moves to the paddle's left edge and velocity_x is inverted. -/
def collideStep (player ai : Paddle) (b : Ball) : Ball :=
  if b.rect.colliderect player.rect then
    { b with x := player.x + player.width, velocity_x := b.velocity_x * (-1) }
  else if b.rect.colliderect ai.rect then
    { b with x := ai.x - b.width, velocity_x := b.velocity_x * (-1) }
  else b

/-- Wall bounce (src/game/game_engine.py lines 70-72): if the ball's top is at
or above the ceiling or its bottom at or below the floor, invert velocity_y.
Nothing else changes. -/
def wallStep (height : Int) (b : Ball) : Ball :=
  if b.y ≤ 0 ∨ height ≤ b.y + b.height then
    { b with velocity_y := b.velocity_y * (-1) }
  else b

/-- Scoring (src/game/game_engine.py lines 74-84): if the ball's x ≤ 0 the AI
scores, the score sound plays and the ball resets; else if x ≥ width the
player scores, the score sound plays and the ball resets. Returns the ball,
the two scores and the sounds played by this block. -/
def scoreStep (width : Int) (sx sy : Bool) (pScore aScore : Int) (b : Ball) :
    Ball × Int × Int × List Sound :=
  if b.x ≤ 0 then
    (b.reset sx sy, pScore, aScore + 1, [Sound.score])
  else if width ≤ b.x then
    (b.reset sx sy, pScore + 1, aScore, [Sound.score])
  else
    (b, pScore, aScore, [])

/-- GameEngine.update (src/game/game_engine.py lines 55-95): record previous
velocities, move the ball, resolve paddle collisions, bounce off walls, score,
play bounce sounds by comparing pre/post velocities, then move the AI paddle.
`sx`, `sy` choose the direction a Ball.reset randomizes (quantified over in
theorems). Returns the new state and the sounds played, in play order. -/
def GameEngine.update (g : GameEngine) (sx sy : Bool) : GameEngine × List Sound :=
  let prev_vx := g.ball.velocity_x
  let prev_vy := g.ball.velocity_y
  let ball1 := g.ball.move
  let ball2 := collideStep g.player g.ai ball1
  let ball3 := wallStep g.height ball2
  let res := scoreStep g.width sx sy g.player_score g.ai_score ball3
  let ball4 := res.1
  let pScore := res.2.1
  let aScore := res.2.2.1
  let scoreSounds := res.2.2.2
  let bounceSounds :=
    if ball4.velocity_x ≠ prev_vx then [Sound.paddle]
    else if ball4.velocity_y ≠ prev_vy then [Sound.wall]
    else []
  let ai2 := g.ai.auto_track ball4 g.height
  ({ g with
      ball := ball4
      ai := ai2
      player_score := pScore
      ai_score := aScore },
   scoreSounds ++ bounceSounds)

/-- GameEngine.check_game_over (src/game/game_engine.py lines 110-129):
returns the winner text when a score has reached the target (player checked
first); the game-over branch, which displays the winner and then shows the
replay menu, runs exactly when the result is `some`. -/
def GameEngine.check_game_over (g : GameEngine) : Option String :=
  if g.target_score ≤ g.player_score then some "Player Wins!"
  else if g.target_score ≤ g.ai_score then some "AI Wins!"
  else none

/-- A replay-menu run that ends with a selection ends with one of these keys. -/
inductive MenuChoice where
  | best3
  | best5
  | best7
deriving Repr, DecidableEq

/-- GameEngine.show_replay_menu (src/game/game_engine.py lines 131-176),
restricted to runs that end with a selection: the chosen key sets
target_score (3 → 2, 5 → 3, 7 → 4), then scores reset to 0, the ball resets,
and both paddles' y is set to height // 2 − paddle_height // 2. `sx`, `sy`
choose the reset's randomized direction as in `GameEngine.update`. -/
def GameEngine.show_replay_menu (g : GameEngine) (c : MenuChoice) (sx sy : Bool) :
    GameEngine :=
  let target : Int :=
    match c with
    | .best3 => 2
    | .best5 => 3
    | .best7 => 4
  { g with
      target_score := target
      player_score := 0
      ai_score := 0
      ball := g.ball.reset sx sy
      player := { g.player with y := Int.fdiv g.height 2 - Int.fdiv g.paddle_height 2 }
      ai := { g.ai with y := Int.fdiv g.height 2 - Int.fdiv g.paddle_height 2 } }

/-! Helper lemmas about the individual steps of `GameEngine.update`. -/

theorem collideStep_not_colliding (player ai : Paddle) (b : Ball)
    (hp : b.rect.colliderect player.rect = false)
    (ha : b.rect.colliderect ai.rect = false) :
    collideStep player ai b = b := by
  simp [collideStep, hp, ha]

theorem collideStep_player_hit (player ai : Paddle) (b : Ball)
    (hp : b.rect.colliderect player.rect = true) :
    collideStep player ai b =
      { b with x := player.x + player.width, velocity_x := b.velocity_x * (-1) } := by
  simp [collideStep, hp]

theorem collideStep_ai_hit (player ai : Paddle) (b : Ball)
    (hp : b.rect.colliderect player.rect = false)
    (ha : b.rect.colliderect ai.rect = true) :
    collideStep player ai b =
      { b with x := ai.x - b.width, velocity_x := b.velocity_x * (-1) } := by
  simp [collideStep, hp, ha]

theorem wallStep_x (height : Int) (b : Ball) : (wallStep height b).x = b.x := by
  unfold wallStep; split <;> rfl

theorem wallStep_y (height : Int) (b : Ball) : (wallStep height b).y = b.y := by
  unfold wallStep; split <;> rfl

theorem wallStep_vx (height : Int) (b : Ball) :
    (wallStep height b).velocity_x = b.velocity_x := by
  unfold wallStep; split <;> rfl

theorem scoreStep_ai_scores (width : Int) (sx sy : Bool) (pScore aScore : Int) (b : Ball)
    (h : b.x ≤ 0) :
    scoreStep width sx sy pScore aScore b =
      (b.reset sx sy, pScore, aScore + 1, [Sound.score]) := by
  simp [scoreStep, h]

theorem scoreStep_player_scores (width : Int) (sx sy : Bool) (pScore aScore : Int) (b : Ball)
    (h1 : 0 < b.x) (h2 : width ≤ b.x) :
    scoreStep width sx sy pScore aScore b =
      (b.reset sx sy, pScore + 1, aScore, [Sound.score]) := by
  simp [scoreStep, not_le.mpr h1, h2]

theorem scoreStep_no_score (width : Int) (sx sy : Bool) (pScore aScore : Int) (b : Ball)
    (h1 : 0 < b.x) (h2 : b.x < width) :
    scoreStep width sx sy pScore aScore b = (b, pScore, aScore, []) := by
  simp [scoreStep, not_le.mpr h1, not_le.mpr h2]

/-- C4: the wall-bounce step of GameEngine.update (lines 70-72): whenever the
ball's top is ≤ 0 or its bottom ≥ the court height, velocity_y is inverted,
and nothing else about the ball changes — in particular its y position is not
repositioned or clamped by this step. -/
theorem wallStep_inverts_vy_without_reposition (height : Int) (b : Ball)
    (h : b.y ≤ 0 ∨ height ≤ b.y + b.height) :
    wallStep height b = { b with velocity_y := -b.velocity_y } := by
  simp [wallStep, h, mul_comm]

/-- Witness for C4: a concrete ball touching the ceiling has its velocity_y
inverted in place. -/
theorem wallStep_inverts_vy_without_reposition_witness :
    (((0 : Int) ≤ 0 ∨ (400 : Int) ≤ 0 + 7)) ∧
    wallStep 400 ⟨5, 0, 7, 7, 4, -3, 800, 400⟩ =
      { (⟨5, 0, 7, 7, 4, -3, 800, 400⟩ : Ball) with velocity_y := -(-3) } :=
  ⟨by decide, wallStep_inverts_vy_without_reposition 400 ⟨5, 0, 7, 7, 4, -3, 800, 400⟩ (by decide)⟩

/-- C1: scoring in GameEngine.update. When the moved ball collides with no
paddle (so no collision repositions it): if its x is ≤ 0 the AI score goes up
by exactly 1, the player score is unchanged and the ball is reset; else if its
x is ≥ the court width the player score goes up by exactly 1, the AI score is
unchanged and the ball is reset; otherwise both scores are unchanged and the
ball keeps its moved position (no reset). -/
theorem update_scoring_cases (g : GameEngine) (sx sy : Bool)
    (hp : g.ball.move.rect.colliderect g.player.rect = false)
    (ha : g.ball.move.rect.colliderect g.ai.rect = false) :
    (g.ball.move.x ≤ 0 →
      (g.update sx sy).1.ai_score = g.ai_score + 1 ∧
      (g.update sx sy).1.player_score = g.player_score ∧
      (g.update sx sy).1.ball = (wallStep g.height g.ball.move).reset sx sy) ∧
    (0 < g.ball.move.x → g.width ≤ g.ball.move.x →
      (g.update sx sy).1.player_score = g.player_score + 1 ∧
      (g.update sx sy).1.ai_score = g.ai_score ∧
      (g.update sx sy).1.ball = (wallStep g.height g.ball.move).reset sx sy) ∧
    (0 < g.ball.move.x → g.ball.move.x < g.width →
      (g.update sx sy).1.player_score = g.player_score ∧
      (g.update sx sy).1.ai_score = g.ai_score ∧
      (g.update sx sy).1.ball = wallStep g.height g.ball.move) := by
  have hco : collideStep g.player g.ai g.ball.move = g.ball.move :=
    collideStep_not_colliding _ _ _ hp ha
  refine ⟨fun hx => ?_, fun hx1 hx2 => ?_, fun hx1 hx2 => ?_⟩
  · have hs := scoreStep_ai_scores g.width sx sy g.player_score g.ai_score
      (wallStep g.height g.ball.move) (by rwa [wallStep_x])
    simp [GameEngine.update, hco, hs]
  · have hs := scoreStep_player_scores g.width sx sy g.player_score g.ai_score
      (wallStep g.height g.ball.move) (by rwa [wallStep_x]) (by rwa [wallStep_x])
    simp [GameEngine.update, hco, hs]
  · have hs := scoreStep_no_score g.width sx sy g.player_score g.ai_score
      (wallStep g.height g.ball.move) (by rwa [wallStep_x]) (by rwa [wallStep_x])
    simp [GameEngine.update, hco, hs]

/-- Concrete state for the C1 witness: the ball exits on the left with no
paddle in the way. -/
def gC1 : GameEngine :=
  { width := 800, height := 400, paddle_width := 10, paddle_height := 100
    player := ⟨10, 300, 10, 100⟩, ai := ⟨780, 150, 10, 100⟩
    ball := ⟨3, 200, 7, 7, -4, 2, 800, 400⟩
    player_score := 0, ai_score := 1, target_score := 5 }

/-- Witness for C1: in `gC1` the moved ball touches neither paddle and has
x ≤ 0, so the AI score increments and the ball resets. -/
theorem update_scoring_cases_witness :
    (gC1.ball.move.rect.colliderect gC1.player.rect = false ∧
     gC1.ball.move.rect.colliderect gC1.ai.rect = false ∧
     gC1.ball.move.x ≤ 0) ∧
    ((gC1.update false true).1.ai_score = gC1.ai_score + 1 ∧
     (gC1.update false true).1.player_score = gC1.player_score ∧
     (gC1.update false true).1.ball = (wallStep gC1.height gC1.ball.move).reset false true) :=
  ⟨⟨by decide, by decide, by decide⟩,
    (update_scoring_cases gC1 false true (by decide) (by decide)).1 (by decide)⟩

/-- C2: paddle-collision response in GameEngine.update. If the moved ball
overlaps the player paddle, at the end of the update the ball's x is the
player paddle's right edge and velocity_x is the negation of its pre-update
value; if it overlaps only the AI paddle, the ball's x is ai.x − ball.width
and velocity_x is the negation of its pre-update value. The geometry
hypotheses say the repositioned ball stays strictly inside the court, which
holds for every engine-built configuration (player edge at 20, AI edge at
width − 27). -/
theorem update_paddle_collision_response (g : GameEngine) (sx sy : Bool)
    (hp1 : 0 < g.player.x + g.player.width)
    (hp2 : g.player.x + g.player.width < g.width)
    (ha1 : 0 < g.ai.x - g.ball.width)
    (ha2 : g.ai.x - g.ball.width < g.width) :
    (g.ball.move.rect.colliderect g.player.rect = true →
      (g.update sx sy).1.ball.x = g.player.x + g.player.width ∧
      (g.update sx sy).1.ball.velocity_x = -g.ball.velocity_x) ∧
    (g.ball.move.rect.colliderect g.player.rect = false →
      g.ball.move.rect.colliderect g.ai.rect = true →
      (g.update sx sy).1.ball.x = g.ai.x - g.ball.width ∧
      (g.update sx sy).1.ball.velocity_x = -g.ball.velocity_x) := by
  constructor
  · intro hcol
    have hco := collideStep_player_hit g.player g.ai g.ball.move hcol
    have hs := scoreStep_no_score g.width sx sy g.player_score g.ai_score
      (wallStep g.height
        { g.ball.move with x := g.player.x + g.player.width,
                           velocity_x := g.ball.move.velocity_x * (-1) })
      (by simpa [wallStep_x] using hp1) (by simpa [wallStep_x] using hp2)
    simp only [GameEngine.update]
    rw [hco, hs]
    simp [wallStep_x, wallStep_vx, Ball.move, mul_neg_one]
  · intro hcol hcola
    have hco := collideStep_ai_hit g.player g.ai g.ball.move hcol hcola
    have hs := scoreStep_no_score g.width sx sy g.player_score g.ai_score
      (wallStep g.height
        { g.ball.move with x := g.ai.x - g.ball.move.width,
                           velocity_x := g.ball.move.velocity_x * (-1) })
      (by simpa [wallStep_x, Ball.move] using ha1)
      (by simpa [wallStep_x, Ball.move] using ha2)
    simp only [GameEngine.update]
    rw [hco, hs]
    simp [wallStep_x, wallStep_vx, Ball.move, mul_neg_one]

/-- Concrete state for the C2 witness: the ball moves left into the player
paddle. -/
def gC2 : GameEngine :=
  { width := 800, height := 400, paddle_width := 10, paddle_height := 100
    player := ⟨10, 150, 10, 100⟩, ai := ⟨780, 150, 10, 100⟩
    ball := ⟨22, 180, 7, 7, -4, 3, 800, 400⟩
    player_score := 0, ai_score := 0, target_score := 5 }

/-- Witness for C2: in `gC2` the moved ball overlaps the player paddle, and
the update leaves it on the paddle's right edge with inverted velocity_x. -/
theorem update_paddle_collision_response_witness :
    (0 < gC2.player.x + gC2.player.width ∧
     gC2.player.x + gC2.player.width < gC2.width ∧
     0 < gC2.ai.x - gC2.ball.width ∧
     gC2.ai.x - gC2.ball.width < gC2.width ∧
     gC2.ball.move.rect.colliderect gC2.player.rect = true) ∧
    ((gC2.update true true).1.ball.x = gC2.player.x + gC2.player.width ∧
     (gC2.update true true).1.ball.velocity_x = -gC2.ball.velocity_x) :=
  ⟨⟨by decide, by decide, by decide, by decide, by decide⟩,
    (update_paddle_collision_response gC2 true true
      (by decide) (by decide) (by decide) (by decide)).1 (by decide)⟩

/-- C3: when the moved ball overlaps both paddles at once, only the
player-paddle branch runs: the collision step equals the player-branch result
(the AI branch has no effect), and at the end of the update the ball sits on
the player paddle's right edge with velocity_x inverted exactly once. -/
theorem update_simultaneous_overlap_player_branch (g : GameEngine) (sx sy : Bool)
    (hcp : g.ball.move.rect.colliderect g.player.rect = true)
    (_hca : g.ball.move.rect.colliderect g.ai.rect = true)
    (hp1 : 0 < g.player.x + g.player.width)
    (hp2 : g.player.x + g.player.width < g.width) :
    collideStep g.player g.ai g.ball.move =
      { g.ball.move with x := g.player.x + g.player.width,
                         velocity_x := g.ball.move.velocity_x * (-1) } ∧
    (g.update sx sy).1.ball.x = g.player.x + g.player.width ∧
    (g.update sx sy).1.ball.velocity_x = -g.ball.velocity_x := by
  have hco := collideStep_player_hit g.player g.ai g.ball.move hcp
  refine ⟨hco, ?_⟩
  have hs := scoreStep_no_score g.width sx sy g.player_score g.ai_score
    (wallStep g.height
      { g.ball.move with x := g.player.x + g.player.width,
                         velocity_x := g.ball.move.velocity_x * (-1) })
    (by simpa [wallStep_x] using hp1) (by simpa [wallStep_x] using hp2)
  simp only [GameEngine.update]
  rw [hco, hs]
  simp [wallStep_x, wallStep_vx, Ball.move, mul_neg_one]

/-- Concrete state for the C3 witness: two adjacent paddles both overlapped by
the moved ball. -/
def gC3 : GameEngine :=
  { width := 800, height := 400, paddle_width := 10, paddle_height := 100
    player := ⟨10, 150, 10, 100⟩, ai := ⟨22, 150, 10, 100⟩
    ball := ⟨22, 180, 7, 7, -4, 3, 800, 400⟩
    player_score := 0, ai_score := 0, target_score := 5 }

/-- Witness for C3: in `gC3` the moved ball overlaps both paddles, and the
player branch alone resolves the collision. -/
theorem update_simultaneous_overlap_player_branch_witness :
    (gC3.ball.move.rect.colliderect gC3.player.rect = true ∧
     gC3.ball.move.rect.colliderect gC3.ai.rect = true ∧
     0 < gC3.player.x + gC3.player.width ∧
     gC3.player.x + gC3.player.width < gC3.width) ∧
    (collideStep gC3.player gC3.ai gC3.ball.move =
      { gC3.ball.move with x := gC3.player.x + gC3.player.width,
                           velocity_x := gC3.ball.move.velocity_x * (-1) } ∧
     (gC3.update true true).1.ball.x = gC3.player.x + gC3.player.width ∧
     (gC3.update true true).1.ball.velocity_x = -gC3.ball.velocity_x) :=
  ⟨⟨by decide, by decide, by decide, by decide⟩,
    update_simultaneous_overlap_player_branch gC3 true true
      (by decide) (by decide) (by decide) (by decide)⟩

/-- C5: GameEngine.check_game_over enters its game-over branch (declares a
winner, i.e. returns `some`) exactly when player_score ≥ target_score or
ai_score ≥ target_score; when neither holds it declares no winner (`none`). -/
theorem check_game_over_iff (g : GameEngine) :
    (g.check_game_over).isSome ↔
      (g.player_score ≥ g.target_score ∨ g.ai_score ≥ g.target_score) := by
  unfold GameEngine.check_game_over
  split_ifs with h1 h2
  · simp [ge_iff_le, h1]
  · simp [ge_iff_le, h2]
  · simp [ge_iff_le, h1, h2]

/-- C8: a single GameEngine.update changes at most one of the two scores, and
when one changes it increases by exactly 1; neither score ever decreases. -/
theorem update_scores_change_at_most_one (g : GameEngine) (sx sy : Bool) :
    ((g.update sx sy).1.player_score = g.player_score ∧
      (g.update sx sy).1.ai_score = g.ai_score) ∨
    ((g.update sx sy).1.player_score = g.player_score + 1 ∧
      (g.update sx sy).1.ai_score = g.ai_score) ∨
    ((g.update sx sy).1.player_score = g.player_score ∧
      (g.update sx sy).1.ai_score = g.ai_score + 1) := by
  simp only [GameEngine.update, scoreStep]
  split_ifs <;> simp

/-- C9: when both scores have reached the target, GameEngine.check_game_over
declares the player the winner, because the player's condition is checked
first. -/
theorem check_game_over_tie_player_wins (g : GameEngine)
    (h1 : g.player_score ≥ g.target_score) (_h2 : g.ai_score ≥ g.target_score) :
    g.check_game_over = some "Player Wins!" := by
  simp [GameEngine.check_game_over, h1]

/-- Witness for C9: a concrete state with both scores at the target yields the
player win message. -/
theorem check_game_over_tie_player_wins_witness :
    ((5 : Int) ≥ 5 ∧ (5 : Int) ≥ 5) ∧
    GameEngine.check_game_over
      ⟨800, 400, 10, 100, ⟨10, 150, 10, 100⟩, ⟨780, 150, 10, 100⟩,
        ⟨400, 200, 7, 7, 4, 4, 800, 400⟩, 5, 5, 5⟩ = some "Player Wins!" :=
  ⟨⟨by decide, by decide⟩,
    check_game_over_tie_player_wins
      ⟨800, 400, 10, 100, ⟨10, 150, 10, 100⟩, ⟨780, 150, 10, 100⟩,
        ⟨400, 200, 7, 7, 4, 4, 800, 400⟩, 5, 5, 5⟩ (by decide) (by decide)⟩

/-- C6: a replay-menu run ending with a selection maps best-of-3 to
target_score 2, best-of-5 to 3, best-of-7 to 4, and on any selection resets
both scores to 0, resets the ball, and sets both paddles' y to
height // 2 − paddle_height // 2. -/
theorem show_replay_menu_selection (g : GameEngine) (c : MenuChoice) (sx sy : Bool) :
    (g.show_replay_menu c sx sy).target_score =
      (match c with | .best3 => 2 | .best5 => 3 | .best7 => 4) ∧
    (g.show_replay_menu c sx sy).player_score = 0 ∧
    (g.show_replay_menu c sx sy).ai_score = 0 ∧
    (g.show_replay_menu c sx sy).ball = g.ball.reset sx sy ∧
    (g.show_replay_menu c sx sy).player.y =
      Int.fdiv g.height 2 - Int.fdiv g.paddle_height 2 ∧
    (g.show_replay_menu c sx sy).ai.y =
      Int.fdiv g.height 2 - Int.fdiv g.paddle_height 2 := by
  cases c <;> simp [GameEngine.show_replay_menu]

/-- Concrete state for the C7 counterexample: the ball exits the left edge and
touches the ceiling in the same frame. -/
def gC7 : GameEngine :=
  { width := 800, height := 400, paddle_width := 10, paddle_height := 100
    player := ⟨10, 300, 10, 100⟩, ai := ⟨780, 150, 10, 100⟩
    ball := ⟨3, 3, 7, 7, -4, -4, 800, 400⟩
    player_score := 0, ai_score := 1, target_score := 5 }

/-- C7 counterexample: a single GameEngine.update can play two sounds. In
`gC7` the ball crosses x ≤ 0 and y ≤ 0 in one frame: the score sound plays in
the scoring block, and because the reset ball's velocity_y differs from the
pre-frame velocity_y, the wall sound also plays in the comparison block — so
the frame plays more than one sound, refuting both the at-most-one-sound claim
and the score-over-wall priority. -/
theorem update_not_single_sound :
    (gC7.update false true).2 = [Sound.score, Sound.wall] ∧
    ¬ ((gC7.update false true).2.length ≤ 1) := by
  decide

/-- C7 amended: each GameEngine.update plays at most one of the paddle-hit and
wall-bounce sounds, with paddle-hit prioritized over wall-bounce, and at most
one score sound; the score sound is played independently of the bounce sounds,
so a frame can play up to two sounds in total. -/
theorem update_sounds_amended (g : GameEngine) (sx sy : Bool) :
    ((g.update sx sy).2.filter (fun s => s != Sound.score)).length ≤ 1 ∧
    (Sound.paddle ∈ (g.update sx sy).2 → Sound.wall ∉ (g.update sx sy).2) ∧
    ((g.update sx sy).2.filter (fun s => s == Sound.score)).length ≤ 1 ∧
    (g.update sx sy).2.length ≤ 2 := by
  simp only [GameEngine.update, scoreStep]
  split_ifs <;> simp [List.filter] <;> decide

/-- C10: GameEngine.update never modifies the player paddle: the player field
(hence its x, y, width and height) is identical before and after the call. -/
theorem update_preserves_player (g : GameEngine) (sx sy : Bool) :
    (g.update sx sy).1.player = g.player :=
  rfl

end Pong
